import Mathlib

/-
Verification of the SQLite connection core:
`src/diesel/src/query_builder/bind_collector.rs` and
`src/diesel/src/sqlite/connection/mod.rs`.

Shallow embedding conventions:
* byte buffers (`Vec<u8>`) are `List Nat`;
* backend type metadata (`DB::TypeMetadata`) is an abstract type parameter `Meta`;
* fallible Rust functions return `Except`;
* the thread-local `ROTX` flag and the transaction-manager depth are threaded
  explicitly through the state types below;
* engine behaviour (success or failure of an SQL statement sent to SQLite) is an
  oracle `String → Option String` (`none` = success, `some msg` = engine error
  with message `msg`).
-/

deriving instance DecidableEq for Except

namespace DieselSqlite

/-- Result of `ToSql::to_sql`: whether the serialized value is SQL NULL
(`serialize::IsNull`). -/
inductive IsNull where
  | yes
  | no
deriving DecidableEq, Repr

/-- The error type (`result::Error`), restricted to the variants this code can
produce: `SerializationError` wrapping an underlying cause, and database errors
coming back from the engine carrying a message. -/
inductive DieselError where
  | SerializationError (cause : String)
  | DatabaseError (msg : String)
deriving DecidableEq, Repr

/-- `RawBytesBindCollector` from `bind_collector.rs`: two parallel sequences
`metadata` and `binds`, plus the auxiliary `value_is_none` sequence of
`(column_name, type, flag)` tuples. -/
structure RawBytesBindCollector (Meta : Type) where
  metadata : List Meta
  binds : List (Option (List Nat))
  value_is_none : List (String × Meta × Bool)
deriving DecidableEq, Repr

/-- `RawBytesBindCollector::new()`: all three sequences empty. -/
def RawBytesBindCollector.new {Meta : Type} : RawBytesBindCollector Meta :=
  { metadata := [], binds := [], value_is_none := [] }

/-- `push_bound_value` from `bind_collector.rs`. The caller-supplied `ToSql`
serialization (external to this core) is passed in as its outcome `ser`:
either an error cause, or the produced bytes together with the `IsNull` flag.
On serialization failure the function returns `SerializationError cause` and
the collector is returned unchanged (`&mut self` untouched); on success it
pushes `some bytes` or `none` onto `binds` according to `is_null` and pushes
the metadata onto `metadata`. -/
def push_bound_value {Meta : Type} (c : RawBytesBindCollector Meta)
    (ser : Except String (List Nat × IsNull)) (meta : Meta) :
    Except DieselError Unit × RawBytesBindCollector Meta :=
  match ser with
  | .error cause => (.error (.SerializationError cause), c)
  | .ok (bytes, isNull) =>
      (.ok (), { c with
        binds := c.binds ++ [match isNull with | .no => some bytes | .yes => none],
        metadata := c.metadata ++ [meta] })

/-- `push_is_value_none` from `bind_collector.rs`: appends one
`(column_name, sql_type, is_none)` tuple to `value_is_none`, touching neither
`metadata` nor `binds`. -/
def push_is_value_none {Meta : Type} (c : RawBytesBindCollector Meta)
    (column_name : String) (sql_type : Meta) (is_none : Bool) :
    RawBytesBindCollector Meta :=
  { c with value_is_none := c.value_is_none ++ [(column_name, sql_type, is_none)] }

/-- One call the query layer makes against the `BindCollector` interface while
`collect_binds` walks the query AST: either `push_bound_value` (with the
serialization outcome of that parameter) or `push_is_value_none`. -/
inductive BindOp (Meta : Type) where
  | pushValue (ser : Except String (List Nat × IsNull)) (meta : Meta)
  | pushIsNone (column_name : String) (sql_type : Meta) (flag : Bool)
deriving DecidableEq, Repr

/-- `source.collect_binds(&mut bind_collector, &())`: the query layer performs
a sequence of `BindOp`s on the collector, aborting at the first error
(`push_bound_value` is the only fallible one). -/
def collect_binds {Meta : Type} :
    List (BindOp Meta) → RawBytesBindCollector Meta →
    Except DieselError (RawBytesBindCollector Meta)
  | [], c => .ok c
  | .pushValue ser m :: rest, c =>
      match push_bound_value c ser m with
      | (.error e, _) => .error e
      | (.ok _, c₂) => collect_binds rest c₂
  | .pushIsNone n t f :: rest, c => collect_binds rest (push_is_value_none c n t f)

/-- Modelled from the spec: `PreparedStatement` (§4.2) — `stmt.rs` is not part
of the sources. A statement is its SQL text plus the ordered list of
`(type, optional bytes)` parameters bound onto it so far; engine acceptance of
a bind is abstracted as success. -/
structure Statement (Meta : Type) where
  sql : String
  bound : List (Meta × Option (List Nat))
deriving DecidableEq, Repr

/-- Modelled from the spec: `Statement::bind(tpe, value)` (§4.2) attaches one
serialized parameter (or NULL when `value = none`) at the next position. -/
def Statement.bind {Meta : Type} (s : Statement Meta) (tpe : Meta)
    (value : Option (List Nat)) : Statement Meta :=
  { s with bound := s.bound ++ [(tpe, value)] }

/-- The bind-resolution walk of `prepare_query` (`mod.rs` lines 253-265):
iterate `value_is_none`; a `true` flag binds NULL using the tuple's type
without consuming a pair; a `false` flag pops the next pair from
`zip_binds = metadata.zip(binds)` via `.next().unwrap()` — `none` models the
`unwrap` panic when the pairs are exhausted. Pairs left over when the walk
ends are simply not consumed. -/
def bindWalk {Meta : Type} :
    List (String × Meta × Bool) → List (Meta × Option (List Nat)) →
    Statement Meta → Option (Statement Meta)
  | [], _, stmt => some stmt
  | (_, tpe, is_none) :: rest, pairs, stmt =>
      if is_none then
        bindWalk rest pairs (stmt.bind tpe none)
      else
        match pairs with
        | [] => none
        | (tpe₂, value) :: ps => bindWalk rest ps (stmt.bind tpe₂ value)

/-- Outcome of `prepare_query`: a statement with binds applied, an error
(carrying the statement's bind state at the moment the error propagated), or a
panic (the `unwrap` in the walk). -/
inductive PrepResult (Meta : Type) where
  | ok (s : Statement Meta)
  | err (e : DieselError) (s : Statement Meta)
  | panic
deriving DecidableEq, Repr

/-- `SqliteConnection::prepare_query` (`mod.rs` lines 242-268), from the point
where the statement has been obtained: build a fresh collector, run
`collect_binds` (propagating its error with `try!` before any bind is
applied), then run the resolution walk over `value_is_none` against
`metadata.zip(binds)`. -/
def prepare_query {Meta : Type} (ops : List (BindOp Meta)) (stmt : Statement Meta) :
    PrepResult Meta :=
  match collect_binds ops RawBytesBindCollector.new with
  | .error e => .err e stmt
  | .ok c =>
      match bindWalk c.value_is_none (c.metadata.zip c.binds) stmt with
      | none => .panic
      | some s => .ok s

/-- Number of entries of a `value_is_none` sequence whose flag is `false`,
i.e. how many `metadata`/`binds` pairs the walk consumes. -/
def falseCount {Meta : Type} (vin : List (String × Meta × Bool)) : Nat :=
  vin.countP fun e => !e.2.2

/-- Engine-visible state of one connection: the transaction depth held by the
`AnsiTransactionManager` and the ordered list of SQL strings sent to the
engine (failed attempts included). -/
structure Conn where
  depth : Nat
  log : List String
deriving DecidableEq, Repr

/-- Full per-call state for the transaction helpers: the thread-local `ROTX`
boolean together with the connection state. -/
structure TxState where
  ro : Bool
  conn : Conn
deriving DecidableEq, Repr

/-- `is_readonly_tx()` from `mod.rs`: reads the thread-local `ROTX` flag. -/
def is_readonly_tx (st : TxState) : Bool :=
  st.ro

/-- Modelled from the spec: sending one SQL string to the engine on behalf of
the transaction manager (§4.5); on success the depth becomes `newDepth`, on
engine failure a `DatabaseError` is returned and the depth is unchanged. -/
def issueSql (oracle : String → Option String) (c : Conn) (sql : String)
    (newDepth : Nat) : Except DieselError Unit × Conn :=
  match oracle sql with
  | none => (.ok (), { depth := newDepth, log := c.log ++ [sql] })
  | some m => (.error (.DatabaseError m), { c with log := c.log ++ [sql] })

/-- Modelled from the spec: `AnsiTransactionManager::begin_transaction` (§4.5)
— `transaction_manager.rs` is not part of the sources. From `Idle` it issues
plain `BEGIN` and moves to depth 1; from depth `n ≥ 1` it creates the nested
savepoint `n` and increments the depth. -/
def begin_transaction (oracle : String → Option String) (c : Conn) :
    Except DieselError Unit × Conn :=
  issueSql oracle c
    (if c.depth = 0 then "BEGIN" else "SAVEPOINT diesel_savepoint_" ++ toString c.depth)
    (c.depth + 1)

/-- Modelled from the spec: `AnsiTransactionManager::begin_transaction_sql`
(§4.5, and the doc comments on `immediate_transaction` and
`exclusive_transaction` in `mod.rs`): issues the given BEGIN variant from
`Idle`, and errors with "transaction already open" when a transaction is
already open, without issuing anything. -/
def begin_transaction_sql (oracle : String → Option String) (c : Conn)
    (sql : String) : Except DieselError Unit × Conn :=
  if c.depth = 0 then
    issueSql oracle c sql 1
  else
    (.error (.DatabaseError "transaction already open"), c)

/-- Modelled from the spec: `AnsiTransactionManager::commit_transaction`
(§4.5): at depth 1 issues `COMMIT`, at depth `n + 2` releases the innermost
savepoint; either way the depth decrements on success. At depth 0 it is a
state error. -/
def commit_transaction (oracle : String → Option String) (c : Conn) :
    Except DieselError Unit × Conn :=
  match c.depth with
  | 0 => (.error (.DatabaseError "no transaction open"), c)
  | 1 => issueSql oracle c "COMMIT" 0
  | n + 2 => issueSql oracle c ("RELEASE SAVEPOINT diesel_savepoint_" ++ toString (n + 1)) (n + 1)

/-- Modelled from the spec: `AnsiTransactionManager::rollback_transaction`
(§4.5): at depth 1 issues `ROLLBACK`, at depth `n + 2` rolls back to the
innermost savepoint; either way the depth decrements on success. At depth 0 it
is a state error. -/
def rollback_transaction (oracle : String → Option String) (c : Conn) :
    Except DieselError Unit × Conn :=
  match c.depth with
  | 0 => (.error (.DatabaseError "no transaction open"), c)
  | 1 => issueSql oracle c "ROLLBACK" 0
  | n + 2 => issueSql oracle c ("ROLLBACK TO SAVEPOINT diesel_savepoint_" ++ toString (n + 1)) (n + 1)

/-- `SqliteConnection::transaction` (`mod.rs` lines 92-110). The closure `f`
receives the value of the thread-local `ROTX` flag at the moment it is
invoked. Faithful to the source: `let _ro_flag = ReadonlyTx::new();` — but
`ReadonlyTx::new` has no return value (its body only sets `ROTX` to `true` and
returns `()`), so no `ReadonlyTx` guard value is ever created, `Drop` never
runs, and nothing in this function ever resets the flag. `try!` converts
transaction-manager errors into `E` via `fromDb` (the `E: From<Error>` bound);
note that when `f` fails and the rollback also fails, `try!` propagates the
rollback error, discarding the error of `f`. -/
def transaction {T E : Type} (fromDb : DieselError → E)
    (oracle : String → Option String) (f : Bool → Except E T) (st : TxState) :
    Except E T × TxState :=
  let st₁ : TxState := { st with ro := true }
  match begin_transaction oracle st₁.conn with
  | (.error e, c) => (.error (fromDb e), { st₁ with conn := c })
  | (.ok _, c) =>
      match f st₁.ro with
      | .ok value =>
          match commit_transaction oracle c with
          | (.ok _, c₂) => (.ok value, { st₁ with conn := c₂ })
          | (.error e, c₂) => (.error (fromDb e), { st₁ with conn := c₂ })
      | .error e =>
          match rollback_transaction oracle c with
          | (.ok _, c₂) => (.error e, { st₁ with conn := c₂ })
          | (.error e₂, c₂) => (.error (fromDb e₂), { st₁ with conn := c₂ })

/-- `SqliteConnection::transaction_sql` (`mod.rs` lines 222-240): like
`transaction` but beginning with the given SQL via `begin_transaction_sql`,
and — faithful to the source — with no line touching the `ROTX` flag. -/
def transaction_sql {T E : Type} (fromDb : DieselError → E)
    (oracle : String → Option String) (f : Bool → Except E T) (sql : String)
    (st : TxState) : Except E T × TxState :=
  match begin_transaction_sql oracle st.conn sql with
  | (.error e, c) => (.error (fromDb e), { st with conn := c })
  | (.ok _, c) =>
      match f st.ro with
      | .ok value =>
          match commit_transaction oracle c with
          | (.ok _, c₂) => (.ok value, { st with conn := c₂ })
          | (.error e, c₂) => (.error (fromDb e), { st with conn := c₂ })
      | .error e =>
          match rollback_transaction oracle c with
          | (.ok _, c₂) => (.error e, { st with conn := c₂ })
          | (.error e₂, c₂) => (.error (fromDb e₂), { st with conn := c₂ })

/-- `SqliteConnection::immediate_transaction` (`mod.rs` lines 184-190):
`transaction_sql` with `BEGIN IMMEDIATE`. -/
def immediate_transaction {T E : Type} (fromDb : DieselError → E)
    (oracle : String → Option String) (f : Bool → Except E T) (st : TxState) :
    Except E T × TxState :=
  transaction_sql fromDb oracle f "BEGIN IMMEDIATE" st

/-- `SqliteConnection::exclusive_transaction` (`mod.rs` lines 214-220):
`transaction_sql` with `BEGIN EXCLUSIVE`. -/
def exclusive_transaction {T E : Type} (fromDb : DieselError → E)
    (oracle : String → Option String) (f : Bool → Except E T) (st : TxState) :
    Except E T × TxState :=
  transaction_sql fromDb oracle f "BEGIN EXCLUSIVE" st

/-- Observable state for the execution and statement-preparation paths: the
set of SQL texts having a cached statement (`StatementCache` keys), whether an
`on_execute` hook is registered, the SQL strings handed to the hook in order,
the SQL strings executed by the engine in order, and the SQL strings compiled
via `Statement::prepare` in order. -/
structure RunState where
  cacheKeys : List String
  hookRegistered : Bool
  hookLog : List String
  execLog : List String
  prepLog : List String
deriving DecidableEq, Repr

/-- `SimpleConnection::batch_execute` for `SqliteConnection` (`mod.rs` lines
68-75): if an `on_execute` hook is registered it is invoked with the query
first; then `raw_connection.exec(query)` runs it (unconditionally — the hook
cannot suppress it), with the engine's verdict given by the oracle. -/
def batch_execute (oracle : String → Option String) (st : RunState)
    (query : String) : Except DieselError Unit × RunState :=
  let st₁ := if st.hookRegistered then { st with hookLog := st.hookLog ++ [query] } else st
  let st₂ := { st₁ with execLog := st₁.execLog ++ [query] }
  match oracle query with
  | none => (.ok (), st₂)
  | some m => (.error (.DatabaseError m), st₂)

/-- `Connection::execute` for `SqliteConnection` (`mod.rs` lines 113-116):
`batch_execute` then `rows_affected_by_last_query` (the row count is supplied
by the environment as `rows`). -/
def execute (oracle : String → Option String) (rows : Nat) (st : RunState)
    (query : String) : Except DieselError Nat × RunState :=
  match batch_execute oracle st query with
  | (.ok _, st₂) => (.ok rows, st₂)
  | (.error e, st₂) => (.error e, st₂)

/-- `SqliteConnection::cached_prepared_statement` (`mod.rs` lines 270-280),
with the `StatementCache` modelled from the spec (§4.4, the cache itself is
not part of the sources): a non-cacheable query always calls the prepare
closure fresh; a cacheable one calls it only on a cache miss and then inserts;
a hit returns the cached statement untouched. The prepare closure (from the
source) invokes the `on_execute` hook with the SQL, then
`Statement::prepare`. -/
def cached_prepared_statement (st : RunState) (sql : String) (cacheable : Bool) :
    RunState :=
  if cacheable && st.cacheKeys.contains sql then
    st
  else
    let st₁ := if st.hookRegistered then { st with hookLog := st.hookLog ++ [sql] } else st
    let st₂ := { st₁ with prepLog := st₁.prepLog ++ [sql] }
    if cacheable then { st₂ with cacheKeys := st₂.cacheKeys ++ [sql] } else st₂

/-- Modelled from the spec: executing a prepared statement (§4.2 `step`, §4.6
— `stmt.rs`/`statement_iterator.rs` are not part of the sources): the
statement's SQL runs on the engine; no hook is consulted on this path. -/
def run_prepared (st : RunState) (sql : String) : RunState :=
  { st with execLog := st.execLog ++ [sql] }

/-- `SqliteConnection` as built by `establish` (`mod.rs` lines 39-44 and
81-90): statement cache, raw connection handle (abstract type `RawConn`),
transaction manager (modelled from the spec §4.5 as its depth), and the
optional `on_execute` hook (modelled as present or absent). -/
structure SqliteConnection (RawConn : Type) where
  statement_cache : List String
  raw_connection : RawConn
  transaction_manager : Nat
  on_execute : Option Unit
deriving DecidableEq, Repr

/-- `Connection::establish` for `SqliteConnection` (`mod.rs` lines 81-90):
`RawConnection::establish(database_url)` (external `raw.rs`, supplied as the
oracle `rawEstablish`, its `ConnectionError` modelled as `String`) is mapped
into a connection with a fresh `StatementCache::new()`, a fresh
`AnsiTransactionManager::new()` (depth 0 per §4.5 `Idle`), and no `on_execute`
hook. -/
def establish {RawConn : Type} (rawEstablish : String → Except String RawConn)
    (database_url : String) : Except String (SqliteConnection RawConn) :=
  (rawEstablish database_url).map fun conn =>
    { statement_cache := [], raw_connection := conn,
      transaction_manager := 0, on_execute := none }

/-- C1: the claim says the thread-local read-only flag is set to true before
`f` runs and cleared back to false on every exit path of
`SqliteConnection::transaction`. The code sets it but never clears it:
`ReadonlyTx::new()` returns `()` rather than a `ReadonlyTx` value, so no guard
exists and the `Drop` impl that would reset `ROTX` never runs. This theorem
evaluates the embedded `transaction` on every oracle, closure and start state:
the flag is `true` after `transaction` returns on every exit path, and `f` is
only ever invoked with the flag reading `true`. -/
theorem flag_left_set_after_transaction {T E : Type} (fromDb : DieselError → E)
    (oracle : String → Option String) (f : Bool → Except E T) (st : TxState) :
    is_readonly_tx (transaction fromDb oracle f st).2 = true ∧
    transaction fromDb oracle f st = transaction fromDb oracle (fun _ => f true) st := by
  refine ⟨?_, rfl⟩
  unfold transaction
  dsimp only
  set p := begin_transaction oracle st.conn with hp
  clear_value p
  obtain ⟨r, c⟩ := p
  cases r with
  | error e => rfl
  | ok u =>
    dsimp only
    cases f true with
    | ok v =>
      set q := commit_transaction oracle c with hq
      clear_value q
      obtain ⟨r₂, c₂⟩ := q
      cases r₂ <;> rfl
    | error e =>
      set q := rollback_transaction oracle c with hq
      clear_value q
      obtain ⟨r₂, c₂⟩ := q
      cases r₂ <;> rfl

/-- C5: a failed serialization makes `push_bound_value` return
`SerializationError` wrapping the underlying cause with the collector
unchanged, and a serialization failure on the second of three parameters
during `collect_binds` makes `prepare_query` surface that error with zero
bound values applied to the statement (the returned statement state is the
untouched input statement). -/
theorem serialization_failure_no_partial_binds {Meta : Type} :
    (∀ (c : RawBytesBindCollector Meta) (cause : String) (m : Meta),
      push_bound_value c (.error cause) m = (.error (.SerializationError cause), c)) ∧
    (∀ (s₁ : List Nat × IsNull) (m₁ m₂ m₃ : Meta) (cause : String)
      (ser₃ : Except String (List Nat × IsNull)) (stmt : Statement Meta),
      prepare_query [.pushValue (.ok s₁) m₁, .pushValue (.error cause) m₂,
        .pushValue ser₃ m₃] stmt = .err (.SerializationError cause) stmt) := by
  refine ⟨fun c cause m => rfl, fun s₁ m₁ m₂ m₃ cause ser₃ stmt => ?_⟩
  obtain ⟨bytes, nl⟩ := s₁
  rfl

/-- C7: every operation on `RawBytesBindCollector` preserves the equal-length
invariant of `metadata` and `binds`: `new` creates both empty; a successful
`push_bound_value` appends exactly one element to each, pushing `none` onto
`binds` exactly when the serializer reports NULL; a failed `push_bound_value`
appends to neither; `push_is_value_none` modifies neither; and any
`push_bound_value` outcome preserves equal lengths. -/
theorem bind_collector_length_invariant {Meta : Type} :
    ((@RawBytesBindCollector.new Meta).metadata = [] ∧
      (@RawBytesBindCollector.new Meta).binds = []) ∧
    (∀ (c : RawBytesBindCollector Meta) (bytes : List Nat) (nl : IsNull) (m : Meta),
      push_bound_value c (.ok (bytes, nl)) m =
        (.ok (), { c with
          metadata := c.metadata ++ [m],
          binds := c.binds ++ [if nl = IsNull.yes then none else some bytes] })) ∧
    (∀ (c : RawBytesBindCollector Meta) (cause : String) (m : Meta),
      (push_bound_value c (.error cause) m).2 = c) ∧
    (∀ (c : RawBytesBindCollector Meta) (n : String) (t : Meta) (b : Bool),
      (push_is_value_none c n t b).metadata = c.metadata ∧
      (push_is_value_none c n t b).binds = c.binds) ∧
    (∀ (c : RawBytesBindCollector Meta) (ser : Except String (List Nat × IsNull)) (m : Meta),
      c.metadata.length = c.binds.length →
      (push_bound_value c ser m).2.metadata.length =
        (push_bound_value c ser m).2.binds.length) := by
  refine ⟨⟨rfl, rfl⟩, ?_, fun c cause m => rfl, fun c n t b => ⟨rfl, rfl⟩, ?_⟩
  · intro c bytes nl m
    cases nl <;> rfl
  · intro c ser m h
    match ser with
    | .error cause => simpa using h
    | .ok (bytes, nl) => cases nl <;> simp [push_bound_value, h]

/-- Witness for C7's invariant conjunct at a concrete collector. -/
theorem bind_collector_length_invariant_inst :
    (push_bound_value (⟨[3], [none], []⟩ : RawBytesBindCollector Nat)
      (.ok ([1, 2], IsNull.no)) 5).2.metadata.length =
    (push_bound_value (⟨[3], [none], []⟩ : RawBytesBindCollector Nat)
      (.ok ([1, 2], IsNull.no)) 5).2.binds.length :=
  (@bind_collector_length_invariant Nat).2.2.2.2
    ⟨[3], [none], []⟩ (.ok ([1, 2], IsNull.no)) 5 rfl

/-- C9: when the collected `value_is_none` sequence is empty, the walk in
`prepare_query` binds nothing at all — even when `binds` is non-empty — and
the leftover `metadata`/`binds` pairs are discarded without error,
`prepare_query` returning `Ok` with the statement's bind state untouched. -/
theorem empty_value_is_none_binds_nothing {Meta : Type}
    (ops : List (BindOp Meta)) (stmt : Statement Meta)
    (c : RawBytesBindCollector Meta)
    (hc : collect_binds ops RawBytesBindCollector.new = .ok c)
    (hv : c.value_is_none = []) :
    prepare_query ops stmt = .ok stmt := by
  simp [prepare_query, hc, hv, bindWalk]

/-- Witness for C9: one successfully collected pair, no `value_is_none`
entries; nothing is bound and the call still returns `Ok`. -/
theorem empty_value_is_none_binds_nothing_inst :
    prepare_query [BindOp.pushValue (.ok ([7], IsNull.no)) (0 : Nat)]
      (⟨"INSERT", []⟩ : Statement Nat) = .ok ⟨"INSERT", []⟩ :=
  empty_value_is_none_binds_nothing _ _ ⟨[0], [some [7]], []⟩ rfl rfl

/-- C10: `establish` succeeds exactly when `RawConnection::establish` does,
propagating its error unchanged, and a fresh connection starts with an empty
statement cache, a transaction manager at depth 0, and no `on_execute`
hook. -/
theorem establish_propagates_and_initializes {RawConn : Type}
    (rawEstablish : String → Except String RawConn) (url : String) :
    (∀ e, rawEstablish url = .error e → establish rawEstablish url = .error e) ∧
    (∀ rc, rawEstablish url = .ok rc →
      establish rawEstablish url =
        .ok { statement_cache := [], raw_connection := rc,
              transaction_manager := 0, on_execute := none }) := by
  constructor
  · intro e he
    simp [establish, he, Except.map]
  · intro rc hrc
    simp [establish, hrc, Except.map]

/-- Concrete raw-connection oracle for the C10 witness: only the in-memory
identifier opens. -/
def rawEstablishInst : String → Except String Nat :=
  fun url => if url = ":memory:" then .ok 0 else .error "unable to open database file"

/-- Witness for C10 on both the success and the failure branch. -/
theorem establish_propagates_and_initializes_inst :
    establish rawEstablishInst ":memory:" =
      .ok { statement_cache := [], raw_connection := 0,
            transaction_manager := 0, on_execute := none } ∧
    establish rawEstablishInst "nope" = .error "unable to open database file" :=
  ⟨(establish_propagates_and_initializes rawEstablishInst ":memory:").2 0 (by decide),
   (establish_propagates_and_initializes rawEstablishInst "nope").1 _ (by decide)⟩

/-- C2, counterexample: the claim says any count mismatch in either direction
fails fast. In the too-many direction it does not: here one `metadata`/`binds`
pair is collected but `value_is_none` is empty, and `prepare_query` silently
discards the leftover pair and returns `Ok` instead of panicking. -/
theorem leftover_pairs_not_fail_fast :
    collect_binds [BindOp.pushValue (.ok ([7], IsNull.no)) (1 : Nat)]
      RawBytesBindCollector.new = .ok ⟨[1], [some [7]], []⟩ ∧
    prepare_query [BindOp.pushValue (.ok ([7], IsNull.no)) (1 : Nat)]
      (⟨"UPDATE t SET a = ?", []⟩ : Statement Nat) =
      .ok ⟨"UPDATE t SET a = ?", []⟩ :=
  ⟨rfl, rfl⟩

/-- C2, amended: the walk consumes every `value_is_none` entry; when the
collected pairs are too few for the false-flag entries it panics (the `unwrap`
of `zip_binds.next()`), but collected pairs left over after the walk are
silently discarded and the walk succeeds — only the too-few direction fails
fast. -/
theorem bind_walk_mismatch_behavior {Meta : Type} :
    ∀ (vin : List (String × Meta × Bool)) (pairs : List (Meta × Option (List Nat)))
      (stmt : Statement Meta),
      (pairs.length < falseCount vin → bindWalk vin pairs stmt = none) ∧
      (falseCount vin ≤ pairs.length → ∃ s, bindWalk vin pairs stmt = some s) := by
  intro vin
  induction vin with
  | nil =>
    intro pairs stmt
    constructor
    · intro h
      simp [falseCount] at h
    · intro _
      exact ⟨stmt, rfl⟩
  | cons e rest ih =>
    intro pairs stmt
    obtain ⟨name, tpe, flag⟩ := e
    cases flag with
    | true =>
      have hfc : falseCount ((name, tpe, true) :: rest) = falseCount rest := by
        simp [falseCount, List.countP_cons]
      constructor
      · intro h
        have hrec := (ih pairs (stmt.bind tpe none)).1 (by rwa [hfc] at h)
        simpa [bindWalk] using hrec
      · intro h
        obtain ⟨s, hs⟩ := (ih pairs (stmt.bind tpe none)).2 (by rwa [hfc] at h)
        exact ⟨s, by simpa [bindWalk] using hs⟩
    | false =>
      have hfc : falseCount ((name, tpe, false) :: rest) = falseCount rest + 1 := by
        simp [falseCount, List.countP_cons]
      cases pairs with
      | nil =>
        constructor
        · intro _
          simp [bindWalk]
        · intro h
          rw [hfc] at h
          exact absurd h (by simp)
      | cons p ps =>
        obtain ⟨tpe₂, value⟩ := p
        constructor
        · intro h
          have hlt : ps.length < falseCount rest := by
            rw [hfc] at h
            simpa using h
          have hrec := (ih ps (stmt.bind tpe₂ value)).1 hlt
          simpa [bindWalk] using hrec
        · intro h
          have hle : falseCount rest ≤ ps.length := by
            rw [hfc] at h
            simpa using h
          obtain ⟨s, hs⟩ := (ih ps (stmt.bind tpe₂ value)).2 hle
          exact ⟨s, by simpa [bindWalk] using hs⟩

/-- Witness for C2's amended statement: two false-flag entries with one pair
panic; one false-flag entry with two pairs succeeds (leftover discarded). -/
theorem bind_walk_mismatch_behavior_inst :
    bindWalk [("a", (0 : Nat), false), ("b", 1, false)] [(5, some [9])]
      ⟨"INSERT INTO u", []⟩ = none ∧
    ∃ s, bindWalk [("a", (0 : Nat), false)] [(5, some [9]), (6, none)]
      ⟨"INSERT INTO u", []⟩ = some s :=
  ⟨(bind_walk_mismatch_behavior _ _ _).1 (by decide),
   (bind_walk_mismatch_behavior _ _ _).2 (by decide)⟩

/-- C6: from an idle connection, when the engine accepts the transaction
statements, `transaction(f)` begins with `BEGIN` before anything else, issues
`COMMIT` and returns the value when `f` returns `Ok`, issues `ROLLBACK` and
returns the error of `f` when it returns `Err`, and the depth is back at its
pre-call value in both cases. -/
theorem transaction_commit_rollback_depth {T E : Type} (fromDb : DieselError → E)
    (oracle : String → Option String) (fr : Except E T) (st : TxState)
    (hd : st.conn.depth = 0) (hb : oracle "BEGIN" = none)
    (hc : oracle "COMMIT" = none) (hr : oracle "ROLLBACK" = none) :
    (∀ v, fr = .ok v →
      (transaction fromDb oracle (fun _ => fr) st).1 = .ok v ∧
      (transaction fromDb oracle (fun _ => fr) st).2.conn.log =
        st.conn.log ++ ["BEGIN", "COMMIT"]) ∧
    (∀ e, fr = .error e →
      (transaction fromDb oracle (fun _ => fr) st).1 = .error e ∧
      (transaction fromDb oracle (fun _ => fr) st).2.conn.log =
        st.conn.log ++ ["BEGIN", "ROLLBACK"]) ∧
    (transaction fromDb oracle (fun _ => fr) st).2.conn.depth = st.conn.depth := by
  obtain ⟨b, conn⟩ := st
  obtain ⟨d, log⟩ := conn
  simp only at hd
  subst hd
  cases fr with
  | ok v =>
    have key : transaction fromDb oracle (fun _ => (Except.ok v : Except E T))
        ⟨b, ⟨0, log⟩⟩ = (.ok v, ⟨true, ⟨0, log ++ ["BEGIN", "COMMIT"]⟩⟩) := by
      simp [transaction, begin_transaction, commit_transaction, issueSql, hb, hc]
    refine ⟨fun w hw => ?_, fun e he => by simp at he, by rw [key]⟩
    obtain rfl : v = w := by injection hw
    rw [key]
    exact ⟨rfl, rfl⟩
  | error e =>
    have key : transaction fromDb oracle (fun _ => (Except.error e : Except E T))
        ⟨b, ⟨0, log⟩⟩ = (.error e, ⟨true, ⟨0, log ++ ["BEGIN", "ROLLBACK"]⟩⟩) := by
      simp [transaction, begin_transaction, rollback_transaction, issueSql, hb, hr]
    refine ⟨fun w hw => by simp at hw, fun e₂ he => ?_, by rw [key]⟩
    obtain rfl : e = e₂ := by injection he
    rw [key]
    exact ⟨rfl, rfl⟩

/-- All-success engine oracle used by concrete witnesses. -/
def allOk : String → Option String := fun _ => none

/-- Witness for C6 on the `Ok` branch with a concrete oracle and closure. -/
theorem transaction_commit_rollback_depth_inst :
    (transaction (fun e => e) allOk (fun _ => (.ok 5 : Except DieselError Nat))
      ⟨false, ⟨0, []⟩⟩).1 = .ok 5 ∧
    (transaction (fun e => e) allOk (fun _ => (.ok 5 : Except DieselError Nat))
      ⟨false, ⟨0, []⟩⟩).2.conn.log = ["BEGIN", "COMMIT"] ∧
    (transaction (fun e => e) allOk (fun _ => (.ok 5 : Except DieselError Nat))
      ⟨false, ⟨0, []⟩⟩).2.conn.depth = 0 :=
  let h := transaction_commit_rollback_depth (fun e => e) allOk (.ok 5)
    ⟨false, ⟨0, []⟩⟩ rfl rfl rfl rfl
  ⟨(h.1 5 rfl).1, (h.1 5 rfl).2, h.2.2⟩

/-- Scenario for the C8 counterexample: with a hook registered, prepare a
cacheable query, run it, prepare the same query again (a cache hit), and run
it again. -/
def c8State : RunState :=
  run_prepared
    (cached_prepared_statement
      (run_prepared
        (cached_prepared_statement ⟨[], true, [], [], []⟩ "SELECT 1" true)
        "SELECT 1")
      "SELECT 1" true)
    "SELECT 1"

/-- C8, counterexample: the claim says a registered hook is invoked before
every SQL string the connection is about to execute. Executing the same cached
statement twice runs its SQL twice but invokes the hook only once — the hook
fires in the prepare closure, which a cache hit never calls. -/
theorem cached_hit_skips_hook :
    c8State.hookRegistered = true ∧
    c8State.execLog = ["SELECT 1", "SELECT 1"] ∧
    c8State.hookLog = ["SELECT 1"] := by
  decide

/-- C8, amended: the registered hook is invoked synchronously with the SQL
text, before execution, on every `batch_execute`/`execute` call, and at
statement-preparation time for statements going through the cache (cache miss
or non-cacheable query); a cache hit reuses the statement without invoking the
hook; and the hook never suppresses or alters execution (the SQL is executed
and the engine verdict is the same whether or not a hook is registered). -/
theorem hook_invocation_sites :
    (∀ (oracle : String → Option String) (st : RunState) (q : String),
      st.hookRegistered = true →
      (batch_execute oracle st q).2.hookLog = st.hookLog ++ [q]) ∧
    (∀ (oracle : String → Option String) (st : RunState) (q : String),
      (batch_execute oracle st q).2.execLog = st.execLog ++ [q]) ∧
    (∀ (oracle : String → Option String) (st : RunState) (q : String) (b : Bool),
      (batch_execute oracle st q).1 =
        (batch_execute oracle { st with hookRegistered := b } q).1) ∧
    (∀ (oracle : String → Option String) (rows : Nat) (st : RunState) (q : String),
      st.hookRegistered = true →
      (execute oracle rows st q).2.hookLog = st.hookLog ++ [q]) ∧
    (∀ (st : RunState) (sql : String),
      st.hookRegistered = true → st.cacheKeys.contains sql = false →
      (cached_prepared_statement st sql true).hookLog = st.hookLog ++ [sql] ∧
      (cached_prepared_statement st sql true).prepLog = st.prepLog ++ [sql]) ∧
    (∀ (st : RunState) (sql : String),
      st.hookRegistered = true →
      (cached_prepared_statement st sql false).hookLog = st.hookLog ++ [sql] ∧
      (cached_prepared_statement st sql false).prepLog = st.prepLog ++ [sql]) ∧
    (∀ (st : RunState) (sql : String),
      st.cacheKeys.contains sql = true →
      cached_prepared_statement st sql true = st) := by
  refine ⟨?_, ?_, ?_, ?_, ?_, ?_, ?_⟩
  · intro oracle st q h
    cases hq : oracle q <;> simp [batch_execute, h, hq]
  · intro oracle st q
    cases hq : oracle q <;> cases h : st.hookRegistered <;>
      simp [batch_execute, h, hq]
  · intro oracle st q b
    cases hq : oracle q <;> cases h : st.hookRegistered <;> cases b <;>
      simp [batch_execute, h, hq]
  · intro oracle rows st q h
    cases hq : oracle q <;> simp [execute, batch_execute, h, hq]
  · intro st sql h hc
    have hm : sql ∉ st.cacheKeys := by simpa using hc
    simp [cached_prepared_statement, h, hm]
  · intro st sql h
    simp [cached_prepared_statement, h]
  · intro st sql hc
    have hm : sql ∈ st.cacheKeys := by simpa using hc
    simp [cached_prepared_statement, hm]

/-- Witness for C8's amended statement at concrete states: a hook-registered
`batch_execute`, a cache miss, an uncacheable prepare, and a cache hit. -/
theorem hook_invocation_sites_inst :
    (batch_execute allOk ⟨[], true, [], [], []⟩ "CREATE TABLE t").2.hookLog =
      ["CREATE TABLE t"] ∧
    (execute allOk 3 ⟨[], true, [], [], []⟩ "DELETE FROM t").2.hookLog =
      ["DELETE FROM t"] ∧
    (cached_prepared_statement ⟨[], true, [], [], []⟩ "SELECT 2" true).hookLog =
      ["SELECT 2"] ∧
    (cached_prepared_statement ⟨[], true, [], [], []⟩ "SELECT 3" false).hookLog =
      ["SELECT 3"] ∧
    cached_prepared_statement ⟨["SELECT 4"], true, [], [], []⟩ "SELECT 4" true =
      ⟨["SELECT 4"], true, [], [], []⟩ :=
  ⟨hook_invocation_sites.1 allOk ⟨[], true, [], [], []⟩ "CREATE TABLE t" rfl,
   hook_invocation_sites.2.2.2.1 allOk 3 ⟨[], true, [], [], []⟩ "DELETE FROM t" rfl,
   (hook_invocation_sites.2.2.2.2.1 ⟨[], true, [], [], []⟩ "SELECT 2" rfl (by decide)).1,
   (hook_invocation_sites.2.2.2.2.2.1 ⟨[], true, [], [], []⟩ "SELECT 3" rfl).1,
   hook_invocation_sites.2.2.2.2.2.2 ⟨["SELECT 4"], true, [], [], []⟩ "SELECT 4" (by decide)⟩

/-- C3, counterexample: the claim says `immediate_transaction` performs the
same read-only-flag handling as `transaction`. On the same input (all-success
engine, closure returning `Ok 0`, flag initially `false`, idle connection) the
two leave the flag in different states: `transaction_sql` never touches the
thread-local flag while `transaction` sets it. -/
theorem immediate_vs_transaction_ro_flag_differs :
    (immediate_transaction (fun e => e) allOk
      (fun _ => (.ok 0 : Except DieselError Nat)) ⟨false, ⟨0, []⟩⟩).2.ro = false ∧
    (transaction (fun e => e) allOk
      (fun _ => (.ok 0 : Except DieselError Nat)) ⟨false, ⟨0, []⟩⟩).2.ro = true ∧
    (immediate_transaction (fun e => e) allOk
      (fun _ => (.ok 0 : Except DieselError Nat)) ⟨false, ⟨0, []⟩⟩).2.conn.log =
      ["BEGIN IMMEDIATE", "COMMIT"] := by
  refine ⟨rfl, rfl, rfl⟩

/-- C3, amended: `immediate_transaction` and `exclusive_transaction` are
`transaction_sql` with `BEGIN IMMEDIATE` / `BEGIN EXCLUSIVE`, and from an idle
connection `transaction_sql` behaves exactly like `transaction` with the BEGIN
variant substituted for plain `BEGIN` — same result (commit on `Ok`, rollback
on `Err`, same error propagation), same final depth, same SQL issued up to the
BEGIN variant — except that it does not touch the read-only flag (which
`transaction` sets and leaves set). -/
theorem transaction_sql_equiv_up_to_begin_and_flag {T E : Type}
    (fromDb : DieselError → E) (oracle : String → Option String) (sqlv : String)
    (fr : Except E T) (b : Bool) :
    immediate_transaction fromDb oracle (fun _ => fr) ⟨b, ⟨0, []⟩⟩ =
      transaction_sql fromDb oracle (fun _ => fr) "BEGIN IMMEDIATE" ⟨b, ⟨0, []⟩⟩ ∧
    exclusive_transaction fromDb oracle (fun _ => fr) ⟨b, ⟨0, []⟩⟩ =
      transaction_sql fromDb oracle (fun _ => fr) "BEGIN EXCLUSIVE" ⟨b, ⟨0, []⟩⟩ ∧
    (transaction_sql fromDb oracle (fun _ => fr) sqlv ⟨b, ⟨0, []⟩⟩).1 =
      (transaction fromDb (fun s => if s = "BEGIN" then oracle sqlv else oracle s)
        (fun _ => fr) ⟨b, ⟨0, []⟩⟩).1 ∧
    (transaction_sql fromDb oracle (fun _ => fr) sqlv ⟨b, ⟨0, []⟩⟩).2.conn.depth =
      (transaction fromDb (fun s => if s = "BEGIN" then oracle sqlv else oracle s)
        (fun _ => fr) ⟨b, ⟨0, []⟩⟩).2.conn.depth ∧
    (transaction_sql fromDb oracle (fun _ => fr) sqlv ⟨b, ⟨0, []⟩⟩).2.conn.log =
      (transaction fromDb (fun s => if s = "BEGIN" then oracle sqlv else oracle s)
        (fun _ => fr) ⟨b, ⟨0, []⟩⟩).2.conn.log.map
          (fun s => if s = "BEGIN" then sqlv else s) ∧
    (transaction_sql fromDb oracle (fun _ => fr) sqlv ⟨b, ⟨0, []⟩⟩).2.ro = b := by
  refine ⟨rfl, rfl, ?_⟩
  cases ho : oracle sqlv with
  | some m =>
    simp [transaction, transaction_sql, begin_transaction, begin_transaction_sql,
      issueSql, ho]
  | none =>
    cases fr with
    | ok v =>
      cases hc : oracle "COMMIT" with
      | none =>
        simp [transaction, transaction_sql, begin_transaction, begin_transaction_sql,
          commit_transaction, issueSql, ho, hc]
      | some m =>
        simp [transaction, transaction_sql, begin_transaction, begin_transaction_sql,
          commit_transaction, issueSql, ho, hc]
    | error e =>
      cases hr : oracle "ROLLBACK" with
      | none =>
        simp [transaction, transaction_sql, begin_transaction, begin_transaction_sql,
          rollback_transaction, issueSql, ho, hr]
      | some m =>
        simp [transaction, transaction_sql, begin_transaction, begin_transaction_sql,
          rollback_transaction, issueSql, ho, hr]

/-- C4: with enough collected pairs for the false-flag entries, the resolution
walk succeeds and appends exactly one binding per `value_is_none` entry, in
original column order: position `i` receives NULL (with the tuple's type) when
entry `i` is flagged, and receives the next collected pair — the one at index
`falseCount (vin.take i)`, i.e. the pairs are consumed in their original
collection order — when it is not. The pair delivered to an unflagged
position depends only on how many unflagged entries precede it, so changing
the number of flagged entries never reorders the non-NULL bindings. -/
theorem bind_resolution_positions {Meta : Type} :
    ∀ (vin : List (String × Meta × Bool)) (pairs : List (Meta × Option (List Nat)))
      (stmt : Statement Meta),
      falseCount vin ≤ pairs.length →
      ∃ tail : List (Meta × Option (List Nat)),
        bindWalk vin pairs stmt = some { sql := stmt.sql, bound := stmt.bound ++ tail } ∧
        tail.length = vin.length ∧
        ∀ i : Nat, (hi : i < vin.length) →
          (vin[i].2.2 = true → tail[i]? = some (vin[i].2.1, none)) ∧
          (vin[i].2.2 = false → tail[i]? = pairs[falseCount (vin.take i)]?) := by
  intro vin
  induction vin with
  | nil =>
    intro pairs stmt _
    refine ⟨[], by simp [bindWalk], rfl, fun i hi => absurd hi (by simp)⟩
  | cons e rest ih =>
    obtain ⟨name, tpe, flag⟩ := e
    intro pairs stmt h
    cases flag with
    | true =>
      have h₁ : falseCount rest ≤ pairs.length := by
        simpa [falseCount, List.countP_cons] using h
      obtain ⟨tail, hw, hlen, hidx⟩ := ih pairs (stmt.bind tpe none) h₁
      refine ⟨(tpe, none) :: tail, ?_, by simp [hlen], ?_⟩
      · simpa [bindWalk, Statement.bind] using hw
      · intro i hi
        cases i with
        | zero =>
          exact ⟨fun _ => by simp, fun hcontra => by simp at hcontra⟩
        | succ j =>
          have hj : j < rest.length := by
            simp only [List.length_cons] at hi
            omega
          have hIH := hidx j hj
          constructor
          · intro ht
            simp only [List.getElem_cons_succ] at ht ⊢
            simpa using hIH.1 ht
          · intro hf
            simp only [List.getElem_cons_succ] at hf ⊢
            have := hIH.2 hf
            simpa [falseCount, List.countP_cons] using this
    | false =>
      cases pairs with
      | nil =>
        exfalso
        simp [falseCount, List.countP_cons] at h
      | cons p ps =>
        obtain ⟨tpe₂, value⟩ := p
        have h₁ : falseCount rest ≤ ps.length := by
          simp only [falseCount, List.countP_cons, List.length_cons] at h ⊢
          simp at h
          omega
        obtain ⟨tail, hw, hlen, hidx⟩ := ih ps (stmt.bind tpe₂ value) h₁
        refine ⟨(tpe₂, value) :: tail, ?_, by simp [hlen], ?_⟩
        · simpa [bindWalk, Statement.bind] using hw
        · intro i hi
          cases i with
          | zero =>
            refine ⟨fun hcontra => by simp at hcontra, fun _ => ?_⟩
            simp [falseCount]
          | succ j =>
            have hj : j < rest.length := by
              simp only [List.length_cons] at hi
              omega
            have hIH := hidx j hj
            constructor
            · intro ht
              simp only [List.getElem_cons_succ] at ht ⊢
              simpa using hIH.1 ht
            · intro hf
              simp only [List.getElem_cons_succ] at hf ⊢
              have := hIH.2 hf
              simpa [falseCount, List.countP_cons] using this

/-- Concrete `value_is_none` sequence for the C4 witness: three entries, the
middle one unflagged. -/
def vin0 : List (String × Nat × Bool) := [("a", 10, true), ("b", 20, false), ("c", 30, true)]

/-- Concrete collected pairs for the C4 witness: one pair, matching the one
unflagged entry of `vin0`. -/
def pairs0 : List (Nat × Option (List Nat)) := [(20, some [5])]

/-- Concrete statement for the C4 witness. -/
def stmt0 : Statement Nat := ⟨"INSERT INTO t VALUES (?, ?, ?)", []⟩

/-- Witness for C4 at `vin0`/`pairs0`/`stmt0`. -/
theorem bind_resolution_positions_inst :
    falseCount vin0 ≤ pairs0.length ∧
    ∃ tail : List (Nat × Option (List Nat)),
      bindWalk vin0 pairs0 stmt0 = some { sql := stmt0.sql, bound := stmt0.bound ++ tail } ∧
      tail.length = vin0.length ∧
      ∀ i : Nat, (hi : i < vin0.length) →
        (vin0[i].2.2 = true → tail[i]? = some (vin0[i].2.1, none)) ∧
        (vin0[i].2.2 = false → tail[i]? = pairs0[falseCount (vin0.take i)]?) :=
  ⟨by decide, bind_resolution_positions vin0 pairs0 stmt0 (by decide)⟩

end DieselSqlite
